import Mathlib

/-!
Shallow embedding of the two modal components of the Aiarttw-nano repository
(src/components/InpaintingModal.tsx and src/components/CroppingModal.tsx).

Canvas pixels are modelled premultiplied-alpha over the rationals; the canvas
compositing operators the code uses (source-over, destination-in,
destination-out) are linear in that representation.  Each React event handler
becomes a function on an explicit state record; the two async handlers take
the outcomes of their awaited operations as arguments and also return the list
of observable effects (network requests, console logs, alerts) they perform.
-/

namespace AiartNano

/-- A pixel colour with premultiplied alpha, components over the rationals. -/
structure RGBA where
  r : ℚ
  g : ℚ
  b : ℚ
  a : ℚ
deriving DecidableEq, Repr

/-- The fully transparent pixel, the result of clearRect. -/
def RGBA.transparent : RGBA := ⟨0, 0, 0, 0⟩

/-- Opaque white, the colour the mask canvas is painted with. -/
def RGBA.whiteOpaque : RGBA := ⟨1, 1, 1, 1⟩

/-- Opaque black, the fill of the final submitted mask. -/
def RGBA.blackOpaque : RGBA := ⟨0, 0, 0, 1⟩

/-- Premultiply a straight-alpha colour (as CSS rgba() colours are written). -/
def premul (c : RGBA) : RGBA := ⟨c.r * c.a, c.g * c.a, c.b * c.a, c.a⟩

/-- A pixel coordinate. -/
abbrev Pt : Type := ℕ × ℕ

/-- A canvas is its pixel contents. -/
abbrev Canvas : Type := Pt → RGBA

/-- The globalCompositeOperation values used by the code. -/
inductive CompositeOp where
  | sourceOver
  | destinationIn
  | destinationOut
deriving DecidableEq, Repr

/-- Porter-Duff compositing of a source pixel over a destination pixel, in
premultiplied representation. -/
def composite : CompositeOp → RGBA → RGBA → RGBA
  | .sourceOver, s, d => ⟨s.r + d.r * (1 - s.a), s.g + d.g * (1 - s.a),
                          s.b + d.b * (1 - s.a), s.a + d.a * (1 - s.a)⟩
  | .destinationIn, s, d => ⟨d.r * s.a, d.g * s.a, d.b * s.a, d.a * s.a⟩
  | .destinationOut, s, d => ⟨d.r * (1 - s.a), d.g * (1 - s.a),
                              d.b * (1 - s.a), d.a * (1 - s.a)⟩

/-- ctx.clearRect over the whole canvas. -/
def clearAll : Canvas := fun _ => RGBA.transparent

/-- ctx.fillRect over the whole canvas with a straight-alpha fillStyle,
under the given composite operation. -/
def fillRect (op : CompositeOp) (color : RGBA) (dst : Canvas) : Canvas :=
  fun p => composite op (premul color) (dst p)

/-- ctx.drawImage of a whole source canvas under the given composite
operation. -/
def drawImage (op : CompositeOp) (src : Canvas) (dst : Canvas) : Canvas :=
  fun p => composite op (src p) (dst p)

/-- Painting a shape (arc fill or stroke) with a straight-alpha colour under
the given composite operation: pixels inside the shape are composited,
pixels outside are untouched. -/
def paintShape (op : CompositeOp) (shape : Pt → Bool) (color : RGBA)
    (dst : Canvas) : Canvas :=
  fun p => if shape p then composite op (premul color) (dst p) else dst p

/-- A point in canvas coordinates (getMousePos result). -/
structure Point where
  x : ℚ
  y : ℚ
deriving DecidableEq, Repr

/-- The disc painted by ctx.arc(c, radius) + fill. -/
def inDisc (c : Point) (radius : ℚ) (p : Pt) : Bool :=
  decide (((p.1 : ℚ) - c.x) ^ 2 + ((p.2 : ℚ) - c.y) ^ 2 ≤ radius ^ 2)

/-- Parameter of the closest point of segment a-b to p, clamped to [0,1]. -/
def segParam (a b : Point) (p : Pt) : ℚ :=
  let dx := b.x - a.x
  let dy := b.y - a.y
  let len2 := dx ^ 2 + dy ^ 2
  if len2 = 0 then 0
  else max 0 (min 1 ((((p.1 : ℚ) - a.x) * dx + ((p.2 : ℚ) - a.y) * dy) / len2))

/-- The round-capped stroke of width 2*radius along segment a-b
(ctx.moveTo/lineTo/stroke with lineCap round). -/
def inStroke (a b : Point) (radius : ℚ) (p : Pt) : Bool :=
  let t := segParam a b p
  decide (((p.1 : ℚ) - (a.x + t * (b.x - a.x))) ^ 2 +
          ((p.2 : ℚ) - (a.y + t * (b.y - a.y))) ^ 2 ≤ radius ^ 2)

/-- A canvas serialized with toDataURL: PNG serialization is lossless, so the
data URL is modelled as carrying the pixel contents. -/
structure DataUrl where
  image : Canvas

/-- canvas.toDataURL(). -/
def toDataURL (c : Canvas) : DataUrl := ⟨c⟩

/-- The image element being edited (the props field the handlers pass through
to onGenerate). -/
structure ImageElement where
  src : String
deriving DecidableEq, Repr

/-- The active tool of the inpainting modal. -/
inductive Tool where
  | brush
  | eraser
  | smart
deriving DecidableEq, Repr

/-- The observable external effects a handler can perform. -/
inductive Effect where
  | netGenerate (element : ImageElement) (maskDataUrl : DataUrl) (prompt : String)
  | netGenerateContent (model : String) (imageBase64 : String)
      (mimeType : String) (text : String)
  | consoleError (msg : String)
  | alert (msg : String)

/-- Whether an effect is an external network request. -/
def isNetwork : Effect → Bool
  | .netGenerate _ _ _ => true
  | .netGenerateContent _ _ _ _ => true
  | _ => false

/-- Whether an effect is the inpainting image-generation request
(image + mask + prompt) issued through onGenerate. -/
def isGenerateRequest : Effect → Bool
  | .netGenerate _ _ _ => true
  | _ => false

/-- Whether an effect is a window.alert. -/
def isAlert : Effect → Bool
  | .alert _ => true
  | _ => false

/-- Whether an effect is a console.error log. -/
def isConsoleError : Effect → Bool
  | .consoleError _ => true
  | _ => false

/-- The state of one InpaintingModal instance: the two canvases, the mask
canvas context settings that persist between calls, and the React state
hooks. -/
structure InpaintState where
  element : ImageElement
  maskCanvas : Canvas
  visibleCanvas : Canvas
  ctxOp : CompositeOp
  ctxLineWidth : ℚ
  isDrawing : Bool
  brushColor : RGBA
  lineWidth : ℚ
  prompt : String
  activeTool : Tool
  smartSelectTarget : String
  history : List DataUrl
  historyIndex : ℤ
  isGenerating : Bool
  generationStatus : String
  generatedImage : Option String
  lastPoint : Option Point

/-- JavaScript truthiness of a nullable string (null and the empty string are
falsy). -/
def jsTruthy : Option String → Bool
  | none => false
  | some str => !str.isEmpty

/-- Array.prototype.slice(0, e): a negative end counts from the end of the
array. -/
def jsSlice (l : List DataUrl) (e : ℤ) : List DataUrl :=
  if e < 0 then l.take ((l.length : ℤ) + e).toNat else l.take e.toNat

/-- syncVisibleCanvas: clear the visible canvas, fill it uniformly with the
semi-transparent brush colour, then clip with destination-in to the offscreen
solid mask canvas. -/
def syncVisibleCanvas (s : InpaintState) : InpaintState :=
  { s with visibleCanvas :=
      (drawImage CompositeOp.destinationIn s.maskCanvas
        (fillRect CompositeOp.sourceOver s.brushColor clearAll)) }

/-- saveHistory: slice the history up to and including historyIndex, push the
serialized mask canvas, and point historyIndex at the new last element. -/
def saveHistory (s : InpaintState) : InpaintState :=
  let newHistory := jsSlice s.history (s.historyIndex + 1) ++ [toDataURL s.maskCanvas]
  { s with history := newHistory, historyIndex := (newHistory.length : ℤ) - 1 }

/-- handleUndo: decrement historyIndex, only when it is positive. -/
def handleUndo (s : InpaintState) : InpaintState :=
  if 0 < s.historyIndex then { s with historyIndex := s.historyIndex - 1 } else s

/-- handleRedo: increment historyIndex, only when it is below the last
index. -/
def handleRedo (s : InpaintState) : InpaintState :=
  if s.historyIndex < (s.history.length : ℤ) - 1 then
    { s with historyIndex := s.historyIndex + 1 }
  else s

/-- handleClear: clear the mask canvas, resync the visible canvas, save a
history snapshot. -/
def handleClear (s : InpaintState) : InpaintState :=
  saveHistory (syncVisibleCanvas { s with maskCanvas := clearAll })

/-- restoreCanvasFromHistory: with an empty history or a negative index,
clear the mask canvas and resync; otherwise redraw the snapshot at
historyIndex (drawImage onto the cleared mask canvas, under the mask
context's current composite operation) and resync.  An out-of-range index
yields undefined and the image never loads, leaving the state unchanged. -/
def restoreCanvasFromHistory (s : InpaintState) : InpaintState :=
  if s.historyIndex < 0 ∨ s.history.isEmpty then
    syncVisibleCanvas { s with maskCanvas := clearAll }
  else
    match s.history.get? s.historyIndex.toNat with
    | some d => syncVisibleCanvas { s with maskCanvas := drawImage s.ctxOp d.image clearAll }
    | none => s

/-- startDrawing: with the smart tool active, return immediately; otherwise
set the mask context settings, paint an opaque white disc of radius
lineWidth/2 (destination-out for the eraser, source-over otherwise), and
resync the visible canvas. -/
def startDrawing (e : Point) (s : InpaintState) : InpaintState :=
  if s.activeTool = Tool.smart then s
  else
    let op := if s.activeTool = Tool.eraser then CompositeOp.destinationOut
              else CompositeOp.sourceOver
    syncVisibleCanvas
      { s with
        isDrawing := true
        lastPoint := some e
        ctxOp := op
        ctxLineWidth := s.lineWidth
        maskCanvas :=
          (paintShape op (inDisc e (s.lineWidth / 2)) RGBA.whiteOpaque s.maskCanvas) }

/-- draw: only while a drawing is in progress; stroke from the last point to
the current point with the mask context's persisted settings, record the
current point, and resync the visible canvas. -/
def draw (e : Point) (s : InpaintState) : InpaintState :=
  if s.isDrawing then
    let s1 :=
      match s.lastPoint with
      | some lp =>
          { s with maskCanvas :=
              (paintShape s.ctxOp (inStroke lp e (s.ctxLineWidth / 2))
                RGBA.whiteOpaque s.maskCanvas) }
      | none => s
    syncVisibleCanvas { s1 with lastPoint := some e }
  else s

/-- stopDrawing: end the drawing and save a history snapshot. -/
def stopDrawing (s : InpaintState) : InpaintState :=
  if s.isDrawing then saveHistory { s with isDrawing := false, lastPoint := none }
  else s

/-- The SMART_SELECT_PROMPT_MAP lookup table. -/
def SMART_SELECT_PROMPT_MAP : List (String × String) :=
  [("臉", "the face of the person"),
   ("頭髮", "the hair of the person"),
   ("頭部", "the entire head of the person"),
   ("手掌", "the hands"),
   ("上半身", "the upper body of the person"),
   ("下半身", "the lower body of the person"),
   ("全身", "the entire person"),
   ("上衣", "the shirt or top clothing"),
   ("褲/裙", "the pants or skirt"),
   ("衣服", "all the clothing on the person"),
   ("背景", "the background, excluding the main subjects"),
   ("電線", "any visible cables or wires"),
   ("物件主體", "the main subject/object in the foreground"),
   ("產品", "the product being displayed")]

/-- SMART_SELECT_PROMPT_MAP[target] || target. -/
def smartTargetOf (t : String) : String :=
  (SMART_SELECT_PROMPT_MAP.lookup t).getD t

/-- The text prompt sent with the smart-mask request. -/
def smartPromptFor (target : String) : String :=
  "Given the input image, create a binary mask image with the same dimensions as the input. The mask must highlight " ++
    target ++ ". The area corresponding to " ++ target ++
    " should be solid white (#FFFFFF), and everything else should be solid black (#000000). Output only the mask image."

/-- The model name of the smart-mask request. -/
def SMART_MODEL : String := "gemini-2.5-flash-image-preview"

/-- How a caught error is logged. -/
def smartErrorLog (msg : String) : String := "Smart mask generation error: " ++ msg

/-- How a caught error is alerted. -/
def smartErrorAlert (msg : String) : String := "智慧選取失敗: " ++ msg

/-- generateSmartMask, the whole async execution including the mask image
onload callback.  blobResult is the awaited dataUrlToBlob outcome (base64 and
mime type, or a thrown error); aiResult the awaited generateContent outcome
(the image part's mime type and data, none when the response has no image
part, or a thrown error); maskImg the decoded returned mask image.  Returns
the final state and the effect trace. -/
def generateSmartMask (blobResult : Except String (String × String))
    (aiResult : Except String (Option (String × String)))
    (maskImg : Canvas) (s : InpaintState) : InpaintState × List Effect :=
  if s.smartSelectTarget = "" then (s, [])
  else
    let s1 := { s with isGenerating := true, generationStatus := "正在分析物件..." }
    match blobResult with
    | .error e =>
        ({ s1 with isGenerating := false },
         [Effect.consoleError (smartErrorLog e), Effect.alert (smartErrorAlert e)])
    | .ok (base64, mimeType) =>
        let req := Effect.netGenerateContent SMART_MODEL base64 mimeType
          (smartPromptFor (smartTargetOf s.smartSelectTarget))
        match aiResult with
        | .error e =>
            ({ s1 with isGenerating := false },
             [req, Effect.consoleError (smartErrorLog e),
              Effect.alert (smartErrorAlert e)])
        | .ok none =>
            ({ s1 with isGenerating := false },
             [req, Effect.consoleError (smartErrorLog "AI did not return a mask image."),
              Effect.alert (smartErrorAlert "AI did not return a mask image.")])
        | .ok (some _) =>
            (saveHistory (syncVisibleCanvas
              { s1 with
                isGenerating := false
                ctxOp := CompositeOp.sourceOver
                maskCanvas := (drawImage CompositeOp.sourceOver maskImg s1.maskCanvas) }),
             [req])

/-- handleCanvasClick: only the smart tool reacts to a canvas click, by
running generateSmartMask. -/
def handleCanvasClick (blobResult : Except String (String × String))
    (aiResult : Except String (Option (String × String)))
    (maskImg : Canvas) (s : InpaintState) : InpaintState × List Effect :=
  if s.activeTool = Tool.smart then generateSmartMask blobResult aiResult maskImg s
  else (s, [])

/-- The final mask handleGenerateClick builds: a canvas of the mask's
dimensions filled with solid black, with the mask shape canvas drawn over
it. -/
def finalMaskOf (mask : Canvas) : Canvas :=
  drawImage CompositeOp.sourceOver mask
    (fillRect CompositeOp.sourceOver RGBA.blackOpaque clearAll)

/-- handleGenerateClick, the whole async execution: genResult is the awaited
onGenerate outcome (the new image source or null, or a rejection).  A
rejection is not caught: the handler stops at the await, so isGenerating is
not reset and nothing is alerted. -/
def handleGenerateClick (genResult : Except String (Option String))
    (s : InpaintState) : InpaintState × List Effect :=
  let s1 := { s with isGenerating := true, generationStatus := "生成中..." }
  let req := Effect.netGenerate s.element (toDataURL (finalMaskOf s.maskCanvas)) s.prompt
  match genResult with
  | .error _ => (s1, [req])
  | .ok newImageSrc =>
      let s2 := if jsTruthy newImageSrc then { s1 with generatedImage := newImageSrc }
                else s1
      ({ s2 with isGenerating := false }, [req])

/-- Which of the two views the modal renders. -/
inductive ModalView where
  | editing
  | comparison
deriving DecidableEq, Repr

/-- The component's view selection: generatedImage ? result : editing. -/
def render (s : InpaintState) : ModalView :=
  if jsTruthy s.generatedImage then ModalView.comparison else ModalView.editing

/-- The mount effect: clear the mask canvas, remember the blank snapshot;
when re-editing, draw the stored mask and start from [blank, initial mask]
at index 1, otherwise from [blank] at index 0; then sync the visible
canvas. -/
def initialInpaintState (el : ImageElement) (initialMask : Option Canvas) : InpaintState :=
  let base : InpaintState :=
    { element := el
      maskCanvas := clearAll
      visibleCanvas := clearAll
      ctxOp := CompositeOp.sourceOver
      ctxLineWidth := 1
      isDrawing := false
      brushColor := ⟨1, 1, 1, 1/2⟩
      lineWidth := 40
      prompt := ""
      activeTool := Tool.brush
      smartSelectTarget := "臉"
      history := []
      historyIndex := -1
      isGenerating := false
      generationStatus := "生成中..."
      generatedImage := none
      lastPoint := none }
  let blankUrl := toDataURL clearAll
  match initialMask with
  | some m =>
      let masked := drawImage CompositeOp.sourceOver m clearAll
      syncVisibleCanvas
        { base with
          maskCanvas := masked
          history := [blankUrl, toDataURL masked]
          historyIndex := 1 }
  | none =>
      syncVisibleCanvas { base with history := [blankUrl], historyIndex := 0 }

/-- The crop area of the outpainting modal (react-easy-crop's Area in
pixels). -/
structure Area where
  x : ℚ
  y : ℚ
  width : ℚ
  height : ℚ
deriving DecidableEq, Repr

/-- The aspect choices offered by the outpainting modal. -/
def aspectRatios : List (ℚ × String) :=
  [(0, "Free"), (1/1, "1:1"), (16/9, "16:9"), (9/16, "9:16"),
   (4/3, "4:3"), (3/4, "3:4"), (3/2, "3:2"), (2/3, "2:3")]

/-- The outpainting modal's handleGenerate: with no completed crop it does
nothing; otherwise it calls onGenerate with the element, the crop area, the
normalized aspect (width/height when Free is selected) and the prompt.  Its
result is the onGenerate call's arguments, none when no call happens. -/
def handleGenerate (el : ImageElement) (croppedAreaPixels : Option Area)
    (aspect : ℚ) (prompt : String) : Option (ImageElement × Area × ℚ × String) :=
  match croppedAreaPixels with
  | some a =>
      some (el, a, (if aspect = 0 then a.width / a.height else aspect), prompt)
  | none => none

end AiartNano

namespace AiartNano

/-- The history stack invariant the component maintains: a non-empty history
with historyIndex a valid position in it. -/
def historyInv (s : InpaintState) : Prop :=
  s.history ≠ [] ∧ 0 ≤ s.historyIndex ∧ s.historyIndex ≤ (s.history.length : ℤ) - 1

lemma saveHistory_history (s : InpaintState) (h : -1 ≤ s.historyIndex) :
    (saveHistory s).history =
      s.history.take (s.historyIndex + 1).toNat ++ [toDataURL s.maskCanvas] := by
  simp only [saveHistory, jsSlice]
  rw [if_neg (by omega)]

lemma saveHistory_historyInv (s : InpaintState) : historyInv (saveHistory s) := by
  refine ⟨by simp [saveHistory], by simp [saveHistory], by simp [saveHistory]⟩

/-- C1: saveHistory truncates the history to the prefix up to and including
historyIndex, appends the current mask snapshot and points historyIndex at the
new last element; handleUndo decrements historyIndex exactly when it is
positive and handleRedo increments it exactly when it is below the last index,
neither touching the history list. -/
theorem inpaint_history_stack_semantics (s : InpaintState) :
    (-1 ≤ s.historyIndex →
      (saveHistory s).history =
        s.history.take (s.historyIndex + 1).toNat ++ [toDataURL s.maskCanvas]) ∧
    (saveHistory s).historyIndex = ((saveHistory s).history.length : ℤ) - 1 ∧
    ((0 < s.historyIndex → (handleUndo s).historyIndex = s.historyIndex - 1) ∧
     (¬ 0 < s.historyIndex → handleUndo s = s) ∧
     (handleUndo s).history = s.history) ∧
    ((s.historyIndex < (s.history.length : ℤ) - 1 →
        (handleRedo s).historyIndex = s.historyIndex + 1) ∧
     (¬ s.historyIndex < (s.history.length : ℤ) - 1 → handleRedo s = s) ∧
     (handleRedo s).history = s.history) := by
  refine ⟨fun h => saveHistory_history s h, by simp [saveHistory], ⟨?_, ?_, ?_⟩, ?_, ?_, ?_⟩
  · intro h; simp [handleUndo, h]
  · intro h; simp [handleUndo, h]
  · by_cases h : 0 < s.historyIndex <;> simp [handleUndo, h]
  · intro h; simp [handleRedo, h]
  · intro h; simp [handleRedo, h]
  · by_cases h : s.historyIndex < (s.history.length : ℤ) - 1 <;> simp [handleRedo, h]

/-- C6: initialization establishes a non-empty history ([blank] at index 0, or
[blank, initial mask] at index 1 when re-editing), and saveHistory, handleUndo,
handleRedo and handleClear each preserve the invariant that the history is
non-empty with 0 <= historyIndex <= history.length - 1, under which
history[historyIndex] is a defined snapshot. -/
theorem inpaint_history_index_valid (el : ImageElement) (m : Option Canvas)
    (s : InpaintState) (h : historyInv s) :
    historyInv (initialInpaintState el m) ∧
    ((initialInpaintState el none).history.length = 1 ∧
     (initialInpaintState el none).historyIndex = 0) ∧
    (∀ mc : Canvas, (initialInpaintState el (some mc)).history.length = 2 ∧
     (initialInpaintState el (some mc)).historyIndex = 1) ∧
    historyInv (saveHistory s) ∧ historyInv (handleUndo s) ∧
    historyInv (handleRedo s) ∧ historyInv (handleClear s) ∧
    (s.history.get? s.historyIndex.toNat).isSome = true := by
  obtain ⟨h1, h2, h3⟩ := h
  have hlen : 1 ≤ s.history.length := List.length_pos.mpr h1
  refine ⟨?_, ?_, ?_, saveHistory_historyInv s, ?_, ?_, saveHistory_historyInv _, ?_⟩
  · cases m <;> simp [initialInpaintState, syncVisibleCanvas, historyInv]
  · simp [initialInpaintState, syncVisibleCanvas]
  · intro mc; simp [initialInpaintState, syncVisibleCanvas]
  · by_cases hc : 0 < s.historyIndex <;>
      simp [handleUndo, hc, historyInv, h1, h2, h3] <;> omega
  · by_cases hc : s.historyIndex < (s.history.length : ℤ) - 1 <;>
      simp [handleRedo, hc, historyInv, h1, h2, h3] <;> omega
  · have hn : s.historyIndex.toNat < s.history.length := by omega
    simp [List.getElem?_eq_getElem hn]

/-- Closed instance of inpaint_history_index_valid: the invariant holds of the
freshly initialized modal and is preserved by a subsequent saveHistory. -/
theorem inpaint_history_index_valid_witness :
    historyInv (saveHistory (initialInpaintState ⟨"img"⟩ none)) :=
  (inpaint_history_index_valid ⟨"img"⟩ none (initialInpaintState ⟨"img"⟩ none)
    (by refine ⟨?_, ?_, ?_⟩ <;> simp [initialInpaintState, syncVisibleCanvas])).2.2.2.1

/-- C8: on any state satisfying the maintained stack invariant, handleRedo
after handleUndo (when undo applies) and handleUndo after handleRedo (when
redo applies) restore the original state, historyIndex included; neither
operation modifies the history list. -/
theorem inpaint_undo_redo_inverse (s : InpaintState) :
    (0 < s.historyIndex → s.historyIndex ≤ (s.history.length : ℤ) - 1 →
      handleRedo (handleUndo s) = s) ∧
    (0 ≤ s.historyIndex → s.historyIndex < (s.history.length : ℤ) - 1 →
      handleUndo (handleRedo s) = s) ∧
    (handleUndo s).history = s.history ∧ (handleRedo s).history = s.history := by
  refine ⟨?_, ?_, ?_, ?_⟩
  · intro h1 h2
    rw [handleUndo, if_pos h1, handleRedo]
    simp only
    rw [if_pos (by omega)]
    have he : s.historyIndex - 1 + 1 = s.historyIndex := by omega
    simp [he]
  · intro h1 h2
    rw [handleRedo, if_pos h2, handleUndo]
    simp only
    rw [if_pos (by omega)]
    have he : s.historyIndex + 1 - 1 = s.historyIndex := by omega
    simp [he]
  · by_cases h : 0 < s.historyIndex <;> simp [handleUndo, h]
  · by_cases h : s.historyIndex < (s.history.length : ℤ) - 1 <;> simp [handleRedo, h]

/-- Closed instance of inpaint_undo_redo_inverse at the two-snapshot
re-editing initial state: undo then redo is the identity there. -/
theorem inpaint_undo_redo_inverse_witness :
    handleRedo (handleUndo (initialInpaintState ⟨"img"⟩ (some clearAll))) =
      initialInpaintState ⟨"img"⟩ (some clearAll) :=
  (inpaint_undo_redo_inverse (initialInpaintState ⟨"img"⟩ (some clearAll))).1
    (by simp [initialInpaintState, syncVisibleCanvas])
    (by simp [initialInpaintState, syncVisibleCanvas])

/-- C10: the outpainting handleGenerate calls onGenerate exactly when a crop
area is present; a selected aspect of 0 (Free) is normalized to the crop
area's width/height ratio, any other aspect is passed through unchanged, and
the element, crop area and prompt are forwarded as given. -/
theorem outpaint_generate_guard_and_aspect (el : ImageElement)
    (c : Option Area) (aspect : ℚ) (prompt : String) :
    ((handleGenerate el c aspect prompt).isSome ↔ c.isSome) ∧
    (∀ a : Area, c = some a →
      handleGenerate el c aspect prompt =
        some (el, a, (if aspect = 0 then a.width / a.height else aspect), prompt)) ∧
    (∀ a : Area, c = some a → aspect ≠ 0 →
      handleGenerate el c aspect prompt = some (el, a, aspect, prompt)) ∧
    aspectRatios.head? = some (0, "Free") := by
  refine ⟨?_, ?_, ?_, rfl⟩
  · cases c <;> simp [handleGenerate]
  · intro a hc; subst hc; rfl
  · intro a hc ha; subst hc; simp [handleGenerate, ha]

end AiartNano

namespace AiartNano

/-- The visible-canvas contents the spec describes: the selected
semi-transparent brush colour applied uniformly, then clipped destination-in
by the solid mask canvas. -/
def specOverlay (brush : RGBA) (mask : Canvas) : Canvas :=
  fun p => composite CompositeOp.destinationIn (mask p) (premul brush)

/-- The dual-layer consistency relation: the visible drawing canvas shows the
brush colour clipped to the offscreen mask canvas. -/
def visibleMatchesMask (s : InpaintState) : Prop :=
  s.visibleCanvas = specOverlay s.brushColor s.maskCanvas

lemma syncVisibleCanvas_matches (s : InpaintState) :
    visibleMatchesMask (syncVisibleCanvas s) := by
  show (drawImage CompositeOp.destinationIn s.maskCanvas
      (fillRect CompositeOp.sourceOver s.brushColor clearAll)) =
    specOverlay s.brushColor s.maskCanvas
  funext p
  simp [drawImage, fillRect, clearAll, composite, premul, specOverlay,
    RGBA.transparent]

lemma saveHistory_matches (s : InpaintState) (h : visibleMatchesMask s) :
    visibleMatchesMask (saveHistory s) := h

/-- C7: after every mask mutation (starting a stroke, continuing one,
clearing, applying a smart mask, restoring a snapshot) the visible drawing
canvas equals the semi-transparent brush colour applied uniformly and clipped
destination-in to the offscreen mask canvas; and saveHistory serializes the
offscreen mask canvas (an injective serialization), never the visible
canvas. -/
theorem inpaint_dual_canvas_consistency (s : InpaintState) (e : Point)
    (maskImg : Canvas) (b64 mime imgMime imgData : String) :
    (s.activeTool ≠ Tool.smart → visibleMatchesMask (startDrawing e s)) ∧
    (s.isDrawing = true → visibleMatchesMask (draw e s)) ∧
    visibleMatchesMask (handleClear s) ∧
    (s.historyIndex ≤ (s.history.length : ℤ) - 1 →
      visibleMatchesMask (restoreCanvasFromHistory s)) ∧
    visibleMatchesMask (syncVisibleCanvas s) ∧
    (s.smartSelectTarget ≠ "" →
      visibleMatchesMask (generateSmartMask (Except.ok (b64, mime))
        (Except.ok (some (imgMime, imgData))) maskImg s).1) ∧
    (saveHistory s).history.getLast? = some (toDataURL s.maskCanvas) ∧
    (∀ c1 c2 : Canvas, toDataURL c1 = toDataURL c2 → c1 = c2) := by
  refine ⟨?_, ?_, ?_, ?_, syncVisibleCanvas_matches s, ?_, ?_, ?_⟩
  · intro h
    rw [startDrawing, if_neg h]
    exact syncVisibleCanvas_matches _
  · intro h
    rw [draw, if_pos h]
    exact syncVisibleCanvas_matches _
  · exact saveHistory_matches _ (syncVisibleCanvas_matches _)
  · intro h
    rw [restoreCanvasFromHistory]
    by_cases hc : s.historyIndex < 0 ∨ s.history.isEmpty
    · rw [if_pos hc]
      exact syncVisibleCanvas_matches _
    · rw [if_neg hc]
      push_neg at hc
      obtain ⟨h0, hne⟩ := hc
      have hlen : 0 < s.history.length := by
        cases hl : s.history with
        | nil => rw [hl] at hne; simp at hne
        | cons a t => simp [hl]
      have hn : s.historyIndex.toNat < s.history.length := by omega
      obtain ⟨d, hd⟩ := Option.isSome_iff_exists.mp
        (by simp [List.getElem?_eq_getElem hn] :
          (s.history.get? s.historyIndex.toNat).isSome = true)
      rw [hd]
      exact syncVisibleCanvas_matches _
  · intro h
    unfold generateSmartMask
    rw [if_neg h]
    exact saveHistory_matches _ (syncVisibleCanvas_matches _)
  · show (jsSlice s.history _ ++ [toDataURL s.maskCanvas]).getLast? = _
    exact List.getLast?_concat _
  · intro c1 c2 hc
    simpa [toDataURL] using congrArg DataUrl.image hc

/-- C2: handleGenerateClick issues exactly one onGenerate call carrying the
element, the prompt, and the mask obtained by filling a canvas with solid
black and drawing the mask shape canvas over it; every pixel the user never
painted is opaque black and every opaque-white painted pixel stays opaque
white. -/
theorem inpaint_final_mask_black_white (s : InpaintState)
    (genResult : Except String (Option String)) :
    (handleGenerateClick genResult s).2 =
      [Effect.netGenerate s.element (toDataURL (finalMaskOf s.maskCanvas)) s.prompt] ∧
    finalMaskOf s.maskCanvas =
      (fun p => composite CompositeOp.sourceOver (s.maskCanvas p) RGBA.blackOpaque) ∧
    (∀ p : Pt, s.maskCanvas p = RGBA.transparent →
      finalMaskOf s.maskCanvas p = RGBA.blackOpaque) ∧
    (∀ p : Pt, s.maskCanvas p = RGBA.whiteOpaque →
      finalMaskOf s.maskCanvas p = RGBA.whiteOpaque) := by
  refine ⟨?_, ?_, ?_, ?_⟩
  · cases genResult <;> rfl
  · funext p
    simp [finalMaskOf, drawImage, fillRect, clearAll, composite, premul,
      RGBA.blackOpaque, RGBA.transparent]
  · intro p hp
    simp [finalMaskOf, drawImage, fillRect, clearAll, composite, premul, hp,
      RGBA.blackOpaque, RGBA.transparent]
  · intro p hp
    simp [finalMaskOf, drawImage, fillRect, clearAll, composite, premul, hp,
      RGBA.blackOpaque, RGBA.whiteOpaque, RGBA.transparent]

/-- C9: with the smart tool active, a mouse-down (startDrawing) changes
nothing at all, and a mouse-move (draw) changes nothing while no drawing is
in progress (the smart tool never starts one); a canvas click runs
generateSmartMask exactly when the smart tool is active, and its success path
composites the returned mask over the mask canvas with source-over and pushes
exactly one new history snapshot. -/
theorem inpaint_smart_tool_frame (s : InpaintState) (e : Point)
    (blobResult : Except String (String × String))
    (aiResult : Except String (Option (String × String)))
    (maskImg : Canvas) (b64 mime imgMime imgData : String) :
    (s.activeTool = Tool.smart → startDrawing e s = s) ∧
    (s.activeTool = Tool.smart → s.isDrawing = false → draw e s = s) ∧
    (s.activeTool ≠ Tool.smart →
      handleCanvasClick blobResult aiResult maskImg s = (s, [])) ∧
    (s.activeTool = Tool.smart →
      handleCanvasClick blobResult aiResult maskImg s =
        generateSmartMask blobResult aiResult maskImg s) ∧
    (s.smartSelectTarget ≠ "" →
      ((generateSmartMask (Except.ok (b64, mime))
          (Except.ok (some (imgMime, imgData))) maskImg s).1.maskCanvas =
        drawImage CompositeOp.sourceOver maskImg s.maskCanvas ∧
       (generateSmartMask (Except.ok (b64, mime))
          (Except.ok (some (imgMime, imgData))) maskImg s).1.history =
        jsSlice s.history (s.historyIndex + 1) ++
          [toDataURL (drawImage CompositeOp.sourceOver maskImg s.maskCanvas)] ∧
       (generateSmartMask (Except.ok (b64, mime))
          (Except.ok (some (imgMime, imgData))) maskImg s).1.historyIndex =
        ((generateSmartMask (Except.ok (b64, mime))
          (Except.ok (some (imgMime, imgData))) maskImg s).1.history.length : ℤ) - 1)) := by
  refine ⟨?_, ?_, ?_, ?_, ?_⟩
  · intro h; rw [startDrawing, if_pos h]
  · intro _ h; rw [draw, h]; rfl
  · intro h; rw [handleCanvasClick, if_neg h]
  · intro h; rw [handleCanvasClick, if_pos h]
  · intro h
    unfold generateSmartMask
    rw [if_neg h]
    exact ⟨rfl, rfl, rfl⟩

end AiartNano

namespace AiartNano

/-- A concrete freshly initialized modal state, used as counterexample
input. -/
def cexState : InpaintState := initialInpaintState ⟨"img"⟩ none

/-- C3 as stated is false: a successful smart-select execution issues a
network request (the GoogleGenAI generateContent call) that is not the
image+mask+prompt generation request, so the generation request is not the
only external network request either modal issues. -/
theorem inpaint_single_external_call_counterexample :
    ∃ ef ∈ (generateSmartMask (Except.ok ("b64", "image/png"))
        (Except.ok (some ("image/png", "m"))) clearAll cexState).2,
      isNetwork ef = true ∧ isGenerateRequest ef = false := by
  refine ⟨Effect.netGenerateContent SMART_MODEL "b64" "image/png"
      (smartPromptFor "the face of the person"), ?_, rfl, rfl⟩
  have h : (generateSmartMask (Except.ok ("b64", "image/png"))
      (Except.ok (some ("image/png", "m"))) clearAll cexState).2 =
      [Effect.netGenerateContent SMART_MODEL "b64" "image/png"
        (smartPromptFor "the face of the person")] := rfl
  rw [h]
  exact List.mem_singleton.mpr rfl

/-- C3 amended: the external boundary consists of image-generation requests
at exactly two call sites; each generateSmartMask execution issues at most
one request, always the generateContent mask request for the selected target,
and each handleGenerateClick execution issues exactly one request, the
onGenerate generation request carrying the element, the composited mask and
the prompt; no other network effects occur. -/
theorem inpaint_external_boundary (s : InpaintState)
    (blobResult : Except String (String × String))
    (aiResult : Except String (Option (String × String)))
    (maskImg : Canvas) (genResult : Except String (Option String)) :
    ((generateSmartMask blobResult aiResult maskImg s).2.filter isNetwork).length ≤ 1 ∧
    (∀ ef ∈ (generateSmartMask blobResult aiResult maskImg s).2,
      isNetwork ef = true →
        ∃ b m, ef = Effect.netGenerateContent SMART_MODEL b m
          (smartPromptFor (smartTargetOf s.smartSelectTarget))) ∧
    (handleGenerateClick genResult s).2.filter isNetwork =
      [Effect.netGenerate s.element (toDataURL (finalMaskOf s.maskCanvas)) s.prompt] ∧
    (∀ ef ∈ (handleGenerateClick genResult s).2,
      isNetwork ef = true ∧ isGenerateRequest ef = true) := by
  have htrace : ∀ ef ∈ (generateSmartMask blobResult aiResult maskImg s).2,
      isNetwork ef = true →
        ∃ b m, ef = Effect.netGenerateContent SMART_MODEL b m
          (smartPromptFor (smartTargetOf s.smartSelectTarget)) := by
    unfold generateSmartMask
    by_cases h : s.smartSelectTarget = ""
    · rw [if_pos h]; intro ef hef; simp at hef
    · rw [if_neg h]
      rcases blobResult with e | ⟨b64, mime⟩
      · intro ef hef hnet
        simp only [List.mem_cons, List.mem_singleton, List.not_mem_nil] at hef
        rcases hef with rfl | rfl | h0
        · simp [isNetwork] at hnet
        · simp [isNetwork] at hnet
        · exact absurd h0 (by simp)
      · rcases aiResult with e | r
        · intro ef hef hnet
          simp only [List.mem_cons, List.mem_singleton, List.not_mem_nil] at hef
          rcases hef with rfl | rfl | rfl | h0
          · exact ⟨b64, mime, rfl⟩
          · simp [isNetwork] at hnet
          · simp [isNetwork] at hnet
          · exact absurd h0 (by simp)
        · rcases r with _ | img
          · intro ef hef hnet
            simp only [List.mem_cons, List.mem_singleton, List.not_mem_nil] at hef
            rcases hef with rfl | rfl | rfl | h0
            · exact ⟨b64, mime, rfl⟩
            · simp [isNetwork] at hnet
            · simp [isNetwork] at hnet
            · exact absurd h0 (by simp)
          · intro ef hef hnet
            simp only [List.mem_singleton] at hef
            subst hef
            exact ⟨b64, mime, rfl⟩
  refine ⟨?_, htrace, ?_, ?_⟩
  · unfold generateSmartMask
    by_cases h : s.smartSelectTarget = ""
    · rw [if_pos h]; simp
    · rw [if_neg h]
      rcases blobResult with e | ⟨b64, mime⟩
      · simp [isNetwork]
      · rcases aiResult with e | r
        · simp [isNetwork]
        · rcases r with _ | img <;> simp [isNetwork]
  · cases genResult <;> rfl
  · intro ef hef
    have h2 : (handleGenerateClick genResult s).2 =
        [Effect.netGenerate s.element (toDataURL (finalMaskOf s.maskCanvas)) s.prompt] := by
      cases genResult <;> rfl
    rw [h2] at hef
    simp only [List.mem_singleton] at hef
    subst hef
    exact ⟨rfl, rfl⟩

/-- C4 as stated is false: when the awaited onGenerate call rejects,
handleGenerateClick catches nothing, alerts nothing and leaves isGenerating
true. -/
theorem inpaint_error_handling_counterexample :
    (handleGenerateClick (Except.error "network failure") cexState).1.isGenerating = true ∧
    ((handleGenerateClick (Except.error "network failure") cexState).2.filter isAlert).length = 0 := by
  exact ⟨rfl, rfl⟩

/-- C4 amended: every error thrown during smart mask generation is caught,
logged and alerted exactly once, with no second request, and isGenerating is
reset in the finally block; handleGenerateClick resets isGenerating only when
onGenerate resolves, and a rejection propagates uncaught, with no alert and
with isGenerating left true. -/
theorem inpaint_generation_error_handling (s : InpaintState) (e : String)
    (b64 mime : String) (aiResult : Except String (Option (String × String)))
    (maskImg : Canvas) (r : Option String) :
    (s.smartSelectTarget ≠ "" →
      (((generateSmartMask (Except.error e) aiResult maskImg s).2.filter isAlert).length = 1 ∧
       ((generateSmartMask (Except.error e) aiResult maskImg s).2.filter isConsoleError).length = 1 ∧
       ((generateSmartMask (Except.error e) aiResult maskImg s).2.filter isNetwork).length = 0 ∧
       (generateSmartMask (Except.error e) aiResult maskImg s).1.isGenerating = false) ∧
      (((generateSmartMask (Except.ok (b64, mime)) (Except.error e) maskImg s).2.filter isAlert).length = 1 ∧
       ((generateSmartMask (Except.ok (b64, mime)) (Except.error e) maskImg s).2.filter isConsoleError).length = 1 ∧
       ((generateSmartMask (Except.ok (b64, mime)) (Except.error e) maskImg s).2.filter isNetwork).length = 1 ∧
       (generateSmartMask (Except.ok (b64, mime)) (Except.error e) maskImg s).1.isGenerating = false) ∧
      (((generateSmartMask (Except.ok (b64, mime)) (Except.ok none) maskImg s).2.filter isAlert).length = 1 ∧
       ((generateSmartMask (Except.ok (b64, mime)) (Except.ok none) maskImg s).2.filter isConsoleError).length = 1 ∧
       ((generateSmartMask (Except.ok (b64, mime)) (Except.ok none) maskImg s).2.filter isNetwork).length = 1 ∧
       (generateSmartMask (Except.ok (b64, mime)) (Except.ok none) maskImg s).1.isGenerating = false)) ∧
    (handleGenerateClick (Except.ok r) s).1.isGenerating = false ∧
    ((handleGenerateClick (Except.error e) s).1.isGenerating = true ∧
     ((handleGenerateClick (Except.error e) s).2.filter isAlert).length = 0) := by
  refine ⟨fun h => ?_, rfl, rfl, rfl⟩
  unfold generateSmartMask
  simp only [if_neg h]
  simp [isAlert, isConsoleError, isNetwork, List.filter]

lemma handleGenerateClick_ok_fst (r : Option String) (s : InpaintState) :
    (handleGenerateClick (Except.ok r) s).1 =
      if jsTruthy r then
        { s with generationStatus := "生成中...", generatedImage := r,
                 isGenerating := false }
      else
        { s with generationStatus := "生成中...", isGenerating := false } := by
  unfold handleGenerateClick
  by_cases h : jsTruthy r <;> simp [h]

/-- C5 as stated is false: an empty-string result from onGenerate is not
null, yet handleGenerateClick leaves generatedImage null and the modal keeps
rendering the editing view. -/
theorem inpaint_result_view_counterexample :
    (handleGenerateClick (Except.ok (some "")) cexState).1.generatedImage = none ∧
    render (handleGenerateClick (Except.ok (some "")) cexState).1 = ModalView.editing := by
  exact ⟨rfl, rfl⟩

/-- C5 amended: a non-null, non-empty resolved image source is stored in
generatedImage and switches the modal to the comparison view; a null (or
empty) result leaves generatedImage unchanged, in particular null, keeping
the editing view; in every resolved case isGenerating is reset to false. -/
theorem inpaint_result_updates_view (s : InpaintState) (r : String) :
    (r ≠ "" →
      (handleGenerateClick (Except.ok (some r)) s).1.generatedImage = some r ∧
      render (handleGenerateClick (Except.ok (some r)) s).1 = ModalView.comparison) ∧
    (s.generatedImage = none →
      (handleGenerateClick (Except.ok none) s).1.generatedImage = none ∧
      render (handleGenerateClick (Except.ok none) s).1 = ModalView.editing) ∧
    (handleGenerateClick (Except.ok (some r)) s).1.isGenerating = false ∧
    (handleGenerateClick (Except.ok none) s).1.isGenerating = false := by
  have hemp : r ≠ "" → jsTruthy (some r) = true := by
    intro ht
    simp [jsTruthy, Bool.eq_false_iff, String.isEmpty_iff, ht]
  refine ⟨fun h => ?_, fun h => ?_, rfl, rfl⟩
  · rw [handleGenerateClick_ok_fst, if_pos (hemp h)]
    exact ⟨rfl, by simp [render, jsTruthy, Bool.eq_false_iff, String.isEmpty_iff, h]⟩
  · rw [handleGenerateClick_ok_fst, if_neg (by simp [jsTruthy])]
    exact ⟨h, by simp [render, jsTruthy, h]⟩

end AiartNano
